import Mathlib

/-!
Shallow embedding of the data pipeline in `src/streamlit_app.py` (a Streamlit
GDP dashboard).  The embedded fragment is the framework-independent core:

* `load_data` (source lines 18-43): reads the CSV, melts the wide table into
  long format over the year columns 1960-2022, coerces `Year` to an integer
  and adds a scaled column `GDP (Milliards $) = GDP / 1e9`.
* the sidebar filter (lines 93-96): keeps rows whose `Country Name` is among
  the selected countries and whose `Year` lies in the inclusive slider range.
* the comparison metrics (lines 120-145): `pivot_table(index="Country Name",
  columns="Year", values="GDP (Milliards $)", aggfunc="sum")` followed by
  `growth = (current_gdp / previous_gdp - 1) * 100` where `previous_gdp` and
  `current_gdp` sit at the first and last pivot columns.

Modelling conventions:

* float64 cell contents are modelled by `ℚ`; the NaN coming from a missing CSV
  cell is `Option.none` at record level.  IEEE special values produced by the
  growth arithmetic (division by zero, NaN propagation) are modelled by the
  dedicated carrier `PVal` (nan, inf, neginf, finite).  Signed zero is
  collapsed to the single `PVal.fin 0`.
* pandas `melt` emits the long rows column-major: for each year column of
  `value_vars` in list order, one output row per source row in load order.
* `pivot_table` with `aggfunc="sum"` groups by (Country Name, Year), sums the
  non-NaN values of each group with `min_count = 0` (an all-NaN group sums to
  0.0), and a (name, year) pair with no group at all reads back as NaN; row
  and column labels are sorted ascending.
* the vectorised division `df_melted["GDP"] / 1e9` raises a TypeError as soon
  as the GDP column holds a non-numeric string (the whole column is
  object-dtype), and the except-branch of `load_data` turns any such exception
  into `st.stop()`: modelled by `Except.error`.
-/

namespace GDP

/-- Content of one year cell as `pd.read_csv` delivers it: an empty cell or a
recognised NA marker becomes NaN (`na`), a numeric literal becomes a float
(`num`), and any other text survives as a string inside an object-dtype
column (`text`). -/
inductive Cell where
  | na : Cell
  | num : ℚ → Cell
  | text : String → Cell
deriving DecidableEq

/-- Whether the cell is non-numeric text (the case that makes the melted GDP
column object-dtype, so that the scaling division raises). -/
def Cell.isText : Cell → Bool
  | .text _ => true
  | _ => false

/-- Value of a cell in the melted `GDP` column, with NaN as `none`.  The
`text` case is unreachable wherever `load_data` uses this: the vectorised
division has already raised on any text cell before a scaled value exists. -/
def Cell.toVal : Cell → Option ℚ
  | .na => none
  | .num q => some q
  | .text _ => none

/-- One row of the wide CSV: the identifying columns kept by `melt`'s
`id_vars`, plus the year columns.  `cells` maps a year column header to its
content; a year absent from the list stands for an empty cell (NaN).  The two
`Indicator *` id columns are constant payload never read by the dashboard and
are omitted. -/
structure RawRow where
  name : String            -- "Country Name"
  code : String            -- "Country Code"
  cells : List (ℕ × Cell)  -- year column header, as an integer, to content
deriving DecidableEq

/-- Cell of row `r` in year column `y`; an absent entry is an empty cell. -/
def RawRow.cell (r : RawRow) (y : ℕ) : Cell :=
  (r.cells.lookup y).getD Cell.na

/-- The melted year columns: `[str(y) for y in range(1960, 2023)]` at source
line 25, with `Year` already coerced back to an integer (line 33). -/
def yearCols : List ℕ := List.range' 1960 63

/-- One row of `df_melted` before the scaled column is added: id columns,
`Year`, and the raw `GDP` cell. -/
structure MeltedRow where
  name : String
  code : String
  year : ℕ
  gdp : Cell
deriving DecidableEq

/-- Whether the melted row carries a text cell. -/
def MeltedRow.hasText (m : MeltedRow) : Bool := m.gdp.isText

/-- Source lines 26-31: `df.melt(id_vars=..., value_vars=years, ...)`.
pandas concatenates the year columns in `value_vars` order, each contributing
one output row per source row in load order, so the result is column-major:
all rows for 1960, then all rows for 1961, and so on. -/
def melt (t : List RawRow) : List MeltedRow :=
  yearCols.flatMap fun y => t.map fun r => ⟨r.name, r.code, y, r.cell y⟩

/-- The display scale `1e9` of source line 34. -/
def scaleFactor : ℚ := 1000000000

/-- One row of the final `df_melted`: `value` is the raw `GDP` column and
`scaled` the `GDP (Milliards $)` column, both with NaN as `none`. -/
structure LongRecord where
  name : String
  code : String
  year : ℕ
  value : Option ℚ
  scaled : Option ℚ
deriving DecidableEq

/-- Source line 34 applied to one melted row: `GDP (Milliards $)` is
`GDP / 1e9`, with NaN staying NaN. -/
def toLong (m : MeltedRow) : LongRecord :=
  ⟨m.name, m.code, m.year, m.gdp.toVal, m.gdp.toVal.map fun v => v / scaleFactor⟩

/-- Source lines 18-43.  The melt always succeeds; the scaling division on
line 34 raises a TypeError if the melted `GDP` column holds any non-numeric
string, and the `except` branch turns that into `st.stop()`, aborting the
load of the whole table (`Except.error`).  Otherwise every melted row gets
its scaled column. -/
def load_data (t : List RawRow) : Except String (List LongRecord) :=
  let ms := melt t
  if ms.any MeltedRow.hasText then
    .error "TypeError: unsupported operand type for /: str and float"
  else
    .ok (ms.map toLong)

/-- The sidebar selection feeding the filter at lines 93-96: the multiselect
list of country names and the inclusive year slider range. -/
structure FilterSpec where
  countries : List String
  yearLo : ℕ
  yearHi : ℕ
deriving DecidableEq

/-- Source lines 93-96: keep rows whose `Country Name` is in the selected
list and whose `Year` is between the slider bounds, both ends inclusive
(pandas `between` defaults to `inclusive="both"`). -/
def filterRecords (recs : List LongRecord) (s : FilterSpec) : List LongRecord :=
  recs.filter fun r =>
    s.countries.contains r.name && decide (s.yearLo ≤ r.year) && decide (r.year ≤ s.yearHi)

/-- Carrier for the float values flowing through the pivot and the growth
metric: NaN, the two infinities, or a finite value. -/
inductive PVal where
  | nan : PVal
  | inf : PVal
  | neginf : PVal
  | fin : ℚ → PVal
deriving DecidableEq

/-- IEEE-754 division on `PVal` (signed zero collapsed): NaN propagates,
`x / 0` is NaN for `x = 0` and a signed infinity otherwise, finite by
finite is exact, finite by infinite is zero, infinite by infinite is NaN. -/
def PVal.div : PVal → PVal → PVal
  | .nan, _ => .nan
  | .inf, .nan => .nan
  | .neginf, .nan => .nan
  | .fin _, .nan => .nan
  | .fin a, .fin b =>
      if b = 0 then (if a = 0 then .nan else if 0 < a then .inf else .neginf)
      else .fin (a / b)
  | .inf, .fin b => if 0 ≤ b then .inf else .neginf
  | .neginf, .fin b => if 0 ≤ b then .neginf else .inf
  | .fin _, .inf => .fin 0
  | .fin _, .neginf => .fin 0
  | .inf, .inf => .nan
  | .inf, .neginf => .nan
  | .neginf, .inf => .nan
  | .neginf, .neginf => .nan

/-- IEEE-754 subtraction on `PVal`: NaN propagates, infinities absorb finite
values, opposite infinities subtract to a signed infinity and equal
infinities to NaN. -/
def PVal.sub : PVal → PVal → PVal
  | .nan, _ => .nan
  | .inf, .nan => .nan
  | .neginf, .nan => .nan
  | .fin _, .nan => .nan
  | .fin a, .fin b => .fin (a - b)
  | .inf, .fin _ => .inf
  | .neginf, .fin _ => .neginf
  | .fin _, .inf => .neginf
  | .fin _, .neginf => .inf
  | .inf, .inf => .nan
  | .inf, .neginf => .inf
  | .neginf, .inf => .neginf
  | .neginf, .neginf => .nan

/-- IEEE-754 multiplication on `PVal`: NaN propagates, infinity times zero is
NaN, otherwise infinities follow the sign rules. -/
def PVal.mul : PVal → PVal → PVal
  | .nan, _ => .nan
  | .inf, .nan => .nan
  | .neginf, .nan => .nan
  | .fin _, .nan => .nan
  | .fin a, .fin b => .fin (a * b)
  | .inf, .fin b => if b = 0 then .nan else if 0 < b then .inf else .neginf
  | .fin a, .inf => if a = 0 then .nan else if 0 < a then .inf else .neginf
  | .neginf, .fin b => if b = 0 then .nan else if 0 < b then .neginf else .inf
  | .fin a, .neginf => if a = 0 then .nan else if 0 < a then .neginf else .inf
  | .inf, .inf => .inf
  | .inf, .neginf => .neginf
  | .neginf, .inf => .neginf
  | .neginf, .neginf => .inf

/-- One cell of `pivot_table(index="Country Name", columns="Year",
values="GDP (Milliards $)", aggfunc="sum")` at lines 120-125: the records
with the given name and year form the group; no group gives a NaN cell after
unstacking, and a group sums its non-NaN values (`min_count = 0`, so an
all-NaN group sums to 0.0). -/
def pivotCell (recs : List LongRecord) (c : String) (y : ℕ) : PVal :=
  let grp := recs.filter fun r => decide (r.name = c) && decide (r.year = y)
  if grp.isEmpty then .nan else .fin (grp.filterMap (fun r => r.scaled)).sum

/-- Ordered insertion without duplicates, the building block for the sorted
label axes of `pivot_table`. -/
def insertYear (y : ℕ) : List ℕ → List ℕ
  | [] => [y]
  | z :: zs => if y < z then y :: z :: zs else if y = z then z :: zs else z :: insertYear y zs

/-- The pivot's column axis: the distinct years of the records, ascending
(pandas sorts group labels). -/
def pivotYears (recs : List LongRecord) : List ℕ :=
  recs.foldr (fun r acc => insertYear r.year acc) []

/-- The guard `country in pivot_df.index` at source line 131: the pivot row
axis holds exactly the country names of the records. -/
def pivotIndexMem (recs : List LongRecord) (c : String) : Bool :=
  recs.any fun r => r.name == c

/-- Source lines 132-138 for one country: `prev_year = pivot_df.columns[0]`,
`latest_year = pivot_df.columns[-1]`, then
`growth = (current_gdp / previous_gdp - 1) * 100` in float arithmetic.
`none` models the IndexError on an empty column axis, which the surrounding
code makes unreachable via the `filtered_df.empty` early return. -/
def growthCalc (recs : List LongRecord) (c : String) : Option PVal :=
  match pivotYears recs with
  | [] => none
  | y :: ys =>
    let latestYear := (y :: ys).getLast (List.cons_ne_nil y ys)
    let current := pivotCell recs c latestYear
    let previous := pivotCell recs c y
    some (((current.div previous).sub (.fin 1)).mul (.fin 100))

/-! Concrete inputs used by the witnesses and counterexamples below. -/

/-- Two-row table: Alandia has a 1960 value and an out-of-range 2023 column;
Borduria carries data only for 2000. -/
def c1table : List RawRow :=
  [⟨"Alandia", "AAA", [(1960, .num 5000000000), (2023, .num 7)]⟩,
   ⟨"Borduria", "BBB", [(2000, .num 2000000000)]⟩]

/-- The reshaped output of `c1table`. -/
def c1recs : List LongRecord := (melt c1table).map toLong

/-- Records whose pivot has a zero start cell: the 2000 group holds a single
NaN value (so its sum is 0.0) and the 2022 group holds 2800. -/
def c2recs : List LongRecord :=
  [⟨"France", "FRA", 2000, none, none⟩,
   ⟨"France", "FRA", 2022, some 2800000000000, some 2800⟩]

/-- A nonempty record collection for exercising the filter. -/
def c3recs : List LongRecord :=
  [⟨"France", "FRA", 2000, some 1300000000000, some 1300⟩]

/-- The France scenario table: 1.3e12 in 2000 and 2.8e12 in 2022. -/
def c4table : List RawRow :=
  [⟨"France", "FRA", [(2000, .num 1300000000000), (2022, .num 2800000000000)]⟩]

/-- The reshaped output of `c4table`. -/
def c4recs : List LongRecord := (melt c4table).map toLong

/-- The scenario records filtered to France over 2000-2022. -/
def c4filtered : List LongRecord := filterRecords c4recs ⟨["France"], 2000, 2022⟩

/-- A one-row table with a single present cell, for the round-trip claim. -/
def c5table : List RawRow :=
  [⟨"France", "FRA", [(2000, .num 1300000000000)]⟩]

/-- The reshaped output of `c5table`. -/
def c5recs : List LongRecord := (melt c5table).map toLong

/-- First of two records sharing the same (entity, year). -/
def c6a : LongRecord := ⟨"France", "FRA", 2000, some 10000000000, some 10⟩

/-- Second of two records sharing the same (entity, year). -/
def c6b : LongRecord := ⟨"France", "FRA", 2000, some 20000000000, some 20⟩

/-- A collection with a duplicate (entity, year) pair. -/
def c6recs : List LongRecord := [c6a, c6b]

/-- Two-row table for observing the output order of the melt. -/
def c7table : List RawRow :=
  [⟨"Alandia", "AAA", [(1960, .num 1000000000)]⟩,
   ⟨"Borduria", "BBB", []⟩]

/-- The reshaped output of `c7table`. -/
def c7recs : List LongRecord := (melt c7table).map toLong

/-- A record whose entity code is "FRA" and entity name "France". -/
def c8rec : LongRecord := ⟨"France", "FRA", 2000, some 1300000000000, some 1300⟩

/-- A table whose 2005 cell holds non-numeric text. -/
def c9table : List RawRow :=
  [⟨"France", "FRA", [(2005, .text "abc")]⟩]

/-- A table whose 2005 cell is the empty string, which `read_csv` parses as
NaN. -/
def c9btable : List RawRow :=
  [⟨"France", "FRA", [(2005, .na)]⟩]

/-- The reshaped output of `c9btable`. -/
def c9brecs : List LongRecord := (melt c9btable).map toLong

/-! General list lemmas about the shapes occurring in the pipeline. -/

/-- Filtering distributes over `flatMap`. -/
theorem filter_flatMap {α β : Type} (ys : List α) (f : α → List β) (p : β → Bool) :
    (ys.flatMap f).filter p = ys.flatMap fun y => (f y).filter p := by
  induction ys with
  | nil => simp
  | cons y ys ih => simp [List.flatMap_cons, List.filter_append, ih]

/-- A `flatMap` of singletons is a `map`. -/
theorem flatMap_singletons {α β : Type} (ys : List α) (f : α → β) :
    (ys.flatMap fun y => [f y]) = ys.map f := by
  induction ys with
  | nil => simp
  | cons y ys ih => simp [List.flatMap_cons, ih]

/-- Filtering a mapped list in which exactly the distinguished element
satisfies the predicate leaves a singleton. -/
theorem filter_map_single {α β : Type} (g : α → β) (p : β → Bool) (t1 t2 : List α) (a : α)
    (h1 : ∀ x ∈ t1, p (g x) = false) (h2 : ∀ x ∈ t2, p (g x) = false)
    (ha : p (g a) = true) :
    ((t1 ++ a :: t2).map g).filter p = [g a] := by
  rw [List.map_append, List.filter_append, List.map_cons, List.filter_cons]
  have e1 : (t1.map g).filter p = [] := by
    rw [List.filter_eq_nil_iff]
    intro b hb
    obtain ⟨x, hx, rfl⟩ := List.mem_map.1 hb
    simp [h1 x hx]
  have e2 : (t2.map g).filter p = [] := by
    rw [List.filter_eq_nil_iff]
    intro b hb
    obtain ⟨x, hx, rfl⟩ := List.mem_map.1 hb
    simp [h2 x hx]
  simp [e1, e2, ha]

/-- A `flatMap` whose blocks are empty away from one occurrence of `y0`
collapses to the block at `y0`. -/
theorem flatMap_eq_single_block {α β : Type} [DecidableEq α] (ys : List α) (g : α → List β)
    (y0 : α) (hmem : y0 ∈ ys) (hnd : ys.Nodup)
    (hother : ∀ y ∈ ys, y ≠ y0 → g y = []) :
    ys.flatMap g = g y0 := by
  induction ys with
  | nil => cases hmem
  | cons z zs ih =>
    rw [List.flatMap_cons]
    rcases List.mem_cons.1 hmem with rfl | hm
    · have hrest : zs.flatMap g = [] := by
        rw [List.flatMap_eq_nil_iff]
        intro y hy
        exact hother y (List.mem_cons_of_mem _ hy)
          (fun h => (List.nodup_cons.1 hnd).1 (h ▸ hy))
      simp [hrest]
    · have hz : g z = [] := by
        refine hother z (List.mem_cons_self z zs) (fun h => ?_)
        exact (List.nodup_cons.1 hnd).1 (h ▸ hm)
      rw [hz, List.nil_append]
      exact ih hm (List.nodup_cons.1 hnd).2
        (fun y hy => hother y (List.mem_cons_of_mem _ hy))

/-- A relation that holds everywhere holds pairwise on any list. -/
theorem pairwise_of_all {α : Type} {R : α → α → Prop} (h : ∀ a b, R a b) :
    ∀ l : List α, l.Pairwise R
  | [] => .nil
  | a :: l => .cons (fun b _ => h a b) (pairwise_of_all h l)

/-! Lemmas about the sorted year axis of the pivot. -/

/-- Membership in an ordered insertion. -/
theorem mem_insertYear {a y : ℕ} (l : List ℕ) : a ∈ insertYear y l ↔ a = y ∨ a ∈ l := by
  induction l with
  | nil => simp [insertYear]
  | cons z zs ih =>
    rw [insertYear]
    split
    · simp only [List.mem_cons]
    · split
      · rename_i h1 h2
        subst h2
        simp only [List.mem_cons]
        tauto
      · simp only [List.mem_cons, ih]
        tauto

/-- Ordered insertion preserves strict sortedness. -/
theorem pairwise_insertYear {y : ℕ} {l : List ℕ} (h : l.Pairwise (· < ·)) :
    (insertYear y l).Pairwise (· < ·) := by
  induction l with
  | nil => simp [insertYear]
  | cons z zs ih =>
    obtain ⟨hz, hzs⟩ := List.pairwise_cons.1 h
    by_cases h1 : y < z
    · rw [insertYear, if_pos h1]
      exact List.pairwise_cons.2
        ⟨fun a ha => (List.mem_cons.1 ha).elim (fun e => e ▸ h1)
          (fun ha' => h1.trans (hz a ha')), h⟩
    · by_cases h2 : y = z
      · rw [insertYear, if_neg h1, if_pos h2]
        exact h
      · have hzy : z < y := lt_of_le_of_ne (not_lt.1 h1) (Ne.symm h2)
        rw [insertYear, if_neg h1, if_neg h2]
        refine List.pairwise_cons.2 ⟨fun a ha => ?_, ih hzs⟩
        rcases (mem_insertYear zs).1 ha with rfl | ha'
        · exact hzy
        · exact hz a ha'

/-- The pivot's year axis holds exactly the years of the records. -/
theorem mem_pivotYears {recs : List LongRecord} {y : ℕ} :
    y ∈ pivotYears recs ↔ ∃ r ∈ recs, r.year = y := by
  unfold pivotYears
  induction recs with
  | nil => simp
  | cons r rs ih =>
    simp only [List.foldr_cons, mem_insertYear, ih, List.mem_cons]
    constructor
    · rintro (rfl | ⟨r', hr', rfl⟩)
      · exact ⟨r, Or.inl rfl, rfl⟩
      · exact ⟨r', Or.inr hr', rfl⟩
    · rintro ⟨r', (rfl | hr'), rfl⟩
      · exact Or.inl rfl
      · exact Or.inr ⟨r', hr', rfl⟩

/-- The pivot's year axis is strictly ascending. -/
theorem pairwise_pivotYears (recs : List LongRecord) :
    (pivotYears recs).Pairwise (· < ·) := by
  unfold pivotYears
  induction recs with
  | nil => exact .nil
  | cons r rs ih => exact pairwise_insertYear ih

/-- In a strictly ascending list the head is a lower bound. -/
theorem sorted_head_le {y : ℕ} {ys : List ℕ} (h : (y :: ys).Pairwise (· < ·)) :
    ∀ a ∈ y :: ys, y ≤ a := by
  intro a ha
  rcases List.mem_cons.1 ha with rfl | ha'
  · exact le_refl a
  · exact ((List.pairwise_cons.1 h).1 a ha').le

/-- In a strictly ascending list the last element is an upper bound. -/
theorem sorted_le_getLast {l : List ℕ} (hne : l ≠ []) (h : l.Pairwise (· < ·)) :
    ∀ a ∈ l, a ≤ l.getLast hne := by
  induction l with
  | nil => cases hne rfl
  | cons z zs ih =>
    intro a ha
    by_cases hzs : zs = []
    · subst hzs
      simp only [List.mem_singleton] at ha
      simp [ha]
    · rw [List.getLast_cons hzs]
      obtain ⟨hz, hpzs⟩ := List.pairwise_cons.1 h
      rcases List.mem_cons.1 ha with rfl | ha'
      · exact (hz _ (List.getLast_mem hzs)).le
      · exact ih hzs hpzs a ha'

/-- A pivot cell is never an infinity: it is NaN for an absent group and a
finite sum otherwise. -/
theorem pivotCell_cases (recs : List LongRecord) (c : String) (y : ℕ) :
    pivotCell recs c y = .nan ∨ ∃ q, pivotCell recs c y = .fin q := by
  unfold pivotCell
  by_cases h : (recs.filter fun r => decide (r.name = c) && decide (r.year = y)).isEmpty
  · exact Or.inl (by simp [h])
  · refine Or.inr ⟨((recs.filter fun r => decide (r.name = c) && decide (r.year = y)).filterMap
      fun r => r.scaled).sum, ?_⟩
    simp [h]

/-- A successful load returns exactly the melted rows with their scaled
column attached. -/
theorem load_data_ok {t : List RawRow} {recs : List LongRecord}
    (hok : load_data t = .ok recs) : recs = (melt t).map toLong := by
  unfold load_data at hok
  by_cases h : ((melt t).any MeltedRow.hasText) = true
  · simp [h] at hok
  · simp [h] at hok
    exact hok.symm

/-- The melted rows' years are nondecreasing when the year blocks are
stacked in ascending order. -/
theorem pairwise_year_flatMap (t : List RawRow) (ys : List ℕ)
    (hys : ys.Pairwise (· < ·)) :
    (ys.flatMap fun y => t.map fun r => (⟨r.name, r.code, y, r.cell y⟩ : MeltedRow)).Pairwise
      (fun a b => a.year ≤ b.year) := by
  induction ys with
  | nil => exact .nil
  | cons y ys ih =>
    rw [List.flatMap_cons, List.pairwise_append]
    obtain ⟨hy, hys'⟩ := List.pairwise_cons.1 hys
    refine ⟨?_, ih hys', ?_⟩
    · rw [List.pairwise_map]
      exact pairwise_of_all (fun a b => le_refl y) t
    · intro a ha b hb
      obtain ⟨r, hr, rfl⟩ := List.mem_map.1 ha
      obtain ⟨y', hy', hb'⟩ := List.mem_flatMap.1 hb
      obtain ⟨r', hr', rfl⟩ := List.mem_map.1 hb'
      exact (hy y' hy').le

/-! Claim theorems. -/

/-- C10: the filter is content- and order-preserving: its output is a
sublist of its input, so every output record is an input record with all of
its fields unchanged, and output records keep the input's relative order. -/
theorem C10_filter_sublist (recs : List LongRecord) (s : FilterSpec) :
    (filterRecords recs s).Sublist recs :=
  List.filter_sublist recs

/-- C3 counterexample: the claim promises an explicit empty-selection signal
distinguishable from a non-empty selection that matched nothing.  On a
nonempty record collection the empty selection and the unmatched selection
"XXX" produce the identical plain empty result, so no distinguishable
signal exists. -/
theorem C3_empty_selection_counterexample :
    c3recs ≠ []
    ∧ filterRecords c3recs ⟨[], 1960, 2022⟩ = []
    ∧ filterRecords c3recs ⟨["XXX"], 1960, 2022⟩ = [] := by
  refine ⟨by decide, by decide, by decide⟩

/-- C3 (amended): filtering with an empty entity selection returns the plain
empty sequence - the same value an unmatched non-empty selection returns -
rather than any distinguished empty-selection signal. -/
theorem C3_empty_selection_empty_result (recs : List LongRecord) (lo hi : ℕ) :
    filterRecords recs ⟨[], lo, hi⟩ = [] := by
  rw [filterRecords, List.filter_eq_nil_iff]
  intro r hr
  simp

/-- C6 counterexample: on two records sharing (entity, year) with scaled
values 10 and 20, the pivot cell is their sum 30, not the last writer's 20:
`pivot_table` aggregates duplicates with `aggfunc="sum"`. -/
theorem C6_duplicates_counterexample :
    c6recs.getLast? = some c6b ∧ c6b.scaled = some 20
    ∧ pivotCell c6recs "France" 2000 = .fin 30
    ∧ PVal.fin 30 ≠ PVal.fin 20 := by
  refine ⟨by decide, by decide, ?_, by decide⟩
  simp [pivotCell, c6recs, c6a, c6b]
  norm_num

/-- C6 (amended): duplicate (entity, year) pairs are resolved by summation,
not last-writer-wins, and the operation stays total: whenever both halves of
a concatenated collection contribute a group for the cell, the concatenated
pivot cell is the sum of the two halves' cells. -/
theorem C6_duplicates_sum (xs ys : List LongRecord) (c : String) (y : ℕ) (a b : ℚ)
    (hx : pivotCell xs c y = .fin a) (hy : pivotCell ys c y = .fin b) :
    pivotCell (xs ++ ys) c y = .fin (a + b) := by
  unfold pivotCell at hx hy ⊢
  by_cases hex : ((xs.filter fun r => decide (r.name = c) && decide (r.year = y)).isEmpty) = true
  · simp [hex] at hx
  · by_cases hey : ((ys.filter fun r => decide (r.name = c) && decide (r.year = y)).isEmpty) = true
    · simp [hey] at hy
    · rw [if_neg hex] at hx
      rw [if_neg hey] at hy
      have hxe : xs.filter (fun r => decide (r.name = c) && decide (r.year = y)) ≠ [] := by
        simpa [List.isEmpty_iff] using hex
      rw [List.filter_append]
      have hne : ¬((xs.filter (fun r => decide (r.name = c) && decide (r.year = y)) ++
          ys.filter (fun r => decide (r.name = c) && decide (r.year = y))).isEmpty = true) := by
        rw [List.isEmpty_iff]
        intro hcontra
        exact hxe (List.append_eq_nil.1 hcontra).1
      rw [if_neg hne, List.filterMap_append, List.sum_append]
      injection hx with hx'
      injection hy with hy'
      rw [hx', hy']

/-- C6 witness: the duplicate cells 10 and 20 aggregate to 30. -/
theorem C6_witness :
    pivotCell [c6a] "France" 2000 = .fin 10
    ∧ pivotCell [c6b] "France" 2000 = .fin 20
    ∧ pivotCell c6recs "France" 2000 = .fin 30 := by
  refine ⟨by simp [pivotCell, c6a], by simp [pivotCell, c6b], ?_⟩
  have h := C6_duplicates_sum [c6a] [c6b] "France" 2000 10 20
    (by simp [pivotCell, c6a]) (by simp [pivotCell, c6b])
  have e : (10 : ℚ) + 20 = 30 := by norm_num
  rw [e] at h
  exact h

/-- C8 counterexample: a record whose entity code "FRA" is in the requested
set and whose year is in range is nevertheless not returned: the filter
tests membership of the entity name, not the entity code. -/
theorem C8_code_membership_counterexample :
    c8rec.code = "FRA" ∧ 1960 ≤ c8rec.year ∧ c8rec.year ≤ 2022
    ∧ filterRecords [c8rec] ⟨["FRA"], 1960, 2022⟩ = [] := by
  refine ⟨by decide, by decide, by decide, by decide⟩

/-- C8 (amended): for a non-empty selection and ordered bounds, the filter
returns exactly the records whose entity name is in the selected set and
whose year lies between the bounds, both inclusive; a selection matching no
record returns the plain empty sequence (the code has no separate
empty-selection signal it could be distinct from). -/
theorem C8_filter_by_name (recs : List LongRecord) (s : FilterSpec)
    (hne : s.countries ≠ []) (hlh : s.yearLo ≤ s.yearHi) :
    (∀ r, r ∈ filterRecords recs s ↔
        r ∈ recs ∧ r.name ∈ s.countries ∧ s.yearLo ≤ r.year ∧ r.year ≤ s.yearHi)
    ∧ ((∀ r ∈ recs, r.name ∉ s.countries) → filterRecords recs s = []) := by
  constructor
  · intro r
    rw [filterRecords, List.mem_filter]
    simp [and_assoc]
  · intro hnone
    rw [filterRecords, List.filter_eq_nil_iff]
    intro r hr
    simp [hnone r hr]

/-- C8 witness: the unmatched request "XXX" returns the empty sequence, and
the name-based request "France" does return the record. -/
theorem C8_witness :
    filterRecords [c8rec] ⟨["XXX"], 1960, 2022⟩ = []
    ∧ c8rec ∈ filterRecords [c8rec] ⟨["France"], 1960, 2022⟩ := by
  constructor
  · exact (C8_filter_by_name [c8rec] ⟨["XXX"], 1960, 2022⟩ (by decide)
      (by decide)).2 (by decide)
  · exact ((C8_filter_by_name [c8rec] ⟨["France"], 1960, 2022⟩ (by decide)
      (by decide)).1 c8rec).2 ⟨by decide, by decide, by decide, by decide⟩

/-- C9 counterexample: a table whose 2005 cell holds the non-numeric text
"abc" makes the melted GDP column object-dtype, the scaling division raises
a TypeError, and `load_data` aborts the load of the whole table instead of
coercing the cell to a missing value. -/
theorem C9_text_cell_counterexample :
    load_data c9table = .error "TypeError: unsupported operand type for /: str and float" := by
  rfl

/-- C9 (amended): when no melted cell is non-numeric text the load succeeds,
and every empty or NA cell (NaN after `read_csv`) yields its record with
`value = none` and `scaled_value = none` instead of being dropped or
raising; a non-numeric text cell, however, aborts the whole load. -/
theorem C9_na_cell_missing (t : List RawRow)
    (hno : ((melt t).any MeltedRow.hasText) = false) :
    load_data t = .ok ((melt t).map toLong)
    ∧ ∀ m ∈ melt t, m.gdp = .na →
        (⟨m.name, m.code, m.year, none, none⟩ : LongRecord) ∈ (melt t).map toLong := by
  constructor
  · unfold load_data
    simp [hno]
  · intro m hm hna
    refine List.mem_map.2 ⟨m, hm, ?_⟩
    rw [toLong, hna]
    rfl

/-- C9 witness: the table whose 2005 cell is the empty string loads
successfully, and the 2005 record carries `none` in both value columns. -/
theorem C9_witness :
    load_data c9btable = .ok c9brecs
    ∧ (⟨"France", "FRA", 2005, none, none⟩ : LongRecord) ∈ c9brecs := by
  refine ⟨rfl, ?_⟩
  exact (C9_na_cell_missing c9btable (by decide)).2
    ⟨"France", "FRA", 2005, Cell.na⟩ (by decide) rfl

/-- C1: for an entity whose code occurs on exactly one row, a successful
reshape emits exactly the 63 records for the years 1960-2022 - one per year
of the configured range, in ascending year order, regardless of which year
columns actually carry data; a year whose cell is absent or empty yields a
record with `value = none` instead of being dropped, and year columns
outside the range are ignored. -/
theorem C1_reshape_full_range (t t1 t2 : List RawRow) (r : RawRow)
    (recs : List LongRecord)
    (hsplit : t = t1 ++ r :: t2)
    (huniq : ∀ x ∈ t1 ++ t2, x.code ≠ r.code)
    (hok : load_data t = .ok recs) :
    recs.filter (fun x => decide (x.code = r.code))
      = yearCols.map (fun y => toLong ⟨r.name, r.code, y, r.cell y⟩)
    ∧ (recs.filter (fun x => decide (x.code = r.code))).length = 63
    ∧ ∀ y ∈ yearCols, r.cell y = .na →
        (⟨r.name, r.code, y, none, none⟩ : LongRecord) ∈ recs := by
  have hm : recs = (melt t).map toLong := load_data_ok hok
  subst hsplit
  have hmain : recs.filter (fun x => decide (x.code = r.code))
      = yearCols.map (fun y => toLong ⟨r.name, r.code, y, r.cell y⟩) := by
    rw [hm, List.filter_map]
    have hcomp : ((fun x : LongRecord => decide (x.code = r.code)) ∘ toLong)
        = fun m : MeltedRow => decide (m.code = r.code) := rfl
    rw [hcomp]
    unfold melt
    rw [filter_flatMap]
    have hblock : ∀ y : ℕ,
        (((t1 ++ r :: t2).map fun row => (⟨row.name, row.code, y, row.cell y⟩ : MeltedRow)).filter
          fun m => decide (m.code = r.code)) = [⟨r.name, r.code, y, r.cell y⟩] := by
      intro y
      exact filter_map_single _ _ t1 t2 r
        (fun x hx => by simp [huniq x (List.mem_append.2 (Or.inl hx))])
        (fun x hx => by simp [huniq x (List.mem_append.2 (Or.inr hx))])
        (by simp)
    simp only [hblock]
    rw [flatMap_singletons, List.map_map]
    rfl
  refine ⟨hmain, by rw [hmain, List.length_map]; rfl, ?_⟩
  intro y hy hna
  have hmem : toLong ⟨r.name, r.code, y, r.cell y⟩
      ∈ recs.filter (fun x => decide (x.code = r.code)) := by
    rw [hmain]
    exact List.mem_map.2 ⟨y, hy, rfl⟩
  have hmem' := (List.mem_filter.1 hmem).1
  rw [hna] at hmem'
  exact hmem'

/-- C1 witness: on the two-row table, the Alandia entity gets exactly 63
records (its out-of-range 2023 column is ignored), and its empty 2000 cell
shows up as a record with both value columns `none`. -/
theorem C1_witness :
    load_data c1table = .ok c1recs
    ∧ (c1recs.filter fun x => decide (x.code = "AAA")).length = 63
    ∧ (⟨"Alandia", "AAA", 2000, none, none⟩ : LongRecord) ∈ c1recs := by
  have h := C1_reshape_full_range c1table []
    [⟨"Borduria", "BBB", [(2000, .num 2000000000)]⟩]
    ⟨"Alandia", "AAA", [(1960, .num 5000000000), (2023, .num 7)]⟩ c1recs rfl
    (by decide) rfl
  exact ⟨rfl, h.2.1, h.2.2 2000 (by decide) rfl⟩

/-- C5 counterexample: the round-trip read-back keyed by entity code fails:
after reshaping a one-row table for France/FRA with a present 2000 cell, the
pivot lookup at ("FRA", 2000) is NaN, because `pivot_table` indexes the pivot
by `Country Name`, not by `Country Code`. -/
theorem C5_roundtrip_counterexample :
    load_data c5table = .ok c5recs
    ∧ (⟨"France", "FRA", 2000, some 1300000000000, some 1300⟩ : LongRecord) ∈ c5recs
    ∧ pivotCell c5recs "FRA" 2000 = .nan := by
  refine ⟨rfl, ?_, by decide⟩
  refine List.mem_map.2 ⟨⟨"France", "FRA", 2000, .num 1300000000000⟩, by decide, ?_⟩
  simp [toLong, Cell.toVal, scaleFactor]
  norm_num

/-- C5 (amended): the round-trip holds keyed by entity name: for a table
with pairwise-distinct entity names, pivoting the full unfiltered reshaped
output and reading back (entity_name, year) returns exactly the scaled value
of every record whose value is present. -/
theorem C5_roundtrip_by_name (t : List RawRow) (recs : List LongRecord)
    (rec : LongRecord) (q : ℚ)
    (hok : load_data t = .ok recs)
    (hnames : t.Pairwise (fun a b => a.name ≠ b.name))
    (hr : rec ∈ recs) (hq : rec.scaled = some q) :
    pivotCell recs rec.name rec.year = .fin q := by
  have hm : recs = (melt t).map toLong := load_data_ok hok
  subst hm
  obtain ⟨m, hmMelt, rfl⟩ := List.mem_map.1 hr
  obtain ⟨y, hyCols, hmBlock⟩ := List.mem_flatMap.1 hmMelt
  obtain ⟨row, hrow, rfl⟩ := List.mem_map.1 hmBlock
  obtain ⟨s1, s2, rfl⟩ := List.append_of_mem hrow
  have hnames' : ∀ x ∈ s1 ++ s2, x.name ≠ row.name := by
    intro x hx
    rcases List.mem_append.1 hx with hx1 | hx2
    · exact (List.pairwise_append.1 hnames).2.2 x hx1 row (List.mem_cons_self _ _)
    · exact fun h =>
        (List.pairwise_cons.1 (List.pairwise_append.1 hnames).2.1).1 x hx2 h.symm
  have key : (melt (s1 ++ row :: s2)).filter
      (fun m => decide (m.name = row.name) && decide (m.year = y))
      = [⟨row.name, row.code, y, row.cell y⟩] := by
    unfold melt
    rw [filter_flatMap]
    have hother : ∀ y' ∈ yearCols, y' ≠ y →
        (((s1 ++ row :: s2).map fun x => (⟨x.name, x.code, y', x.cell y'⟩ : MeltedRow)).filter
          fun m => decide (m.name = row.name) && decide (m.year = y)) = [] := by
      intro y' hy' hne
      rw [List.filter_eq_nil_iff]
      intro m hm'
      obtain ⟨x, hx, rfl⟩ := List.mem_map.1 hm'
      simp [hne]
    rw [flatMap_eq_single_block yearCols _ y hyCols (List.nodup_range' 1960 63) hother]
    exact filter_map_single _ _ s1 s2 row
      (fun x hx => by simp [hnames' x (List.mem_append.2 (Or.inl hx))])
      (fun x hx => by simp [hnames' x (List.mem_append.2 (Or.inr hx))])
      (by simp)
  show pivotCell ((melt (s1 ++ row :: s2)).map toLong) row.name y = .fin q
  have hfilter : (((melt (s1 ++ row :: s2)).map toLong).filter
      fun x => decide (x.name = row.name) && decide (x.year = y))
      = [toLong ⟨row.name, row.code, y, row.cell y⟩] := by
    rw [List.filter_map]
    have hcomp : ((fun x : LongRecord => decide (x.name = row.name) && decide (x.year = y)) ∘ toLong)
        = fun m : MeltedRow => decide (m.name = row.name) && decide (m.year = y) := rfl
    rw [hcomp, key]
    rfl
  unfold pivotCell
  rw [hfilter]
  simp [hq]

/-- C5 witness: the present France cell at 2000 reads back from the pivot by
entity name as exactly 1300. -/
theorem C5_witness :
    pivotCell c5recs "France" 2000 = .fin 1300 := by
  have hmem : (⟨"France", "FRA", 2000, some 1300000000000, some 1300⟩ : LongRecord) ∈ c5recs := by
    refine List.mem_map.2 ⟨⟨"France", "FRA", 2000, .num 1300000000000⟩, by decide, ?_⟩
    simp [toLong, Cell.toVal, scaleFactor]
    norm_num
  exact C5_roundtrip_by_name c5table c5recs
    ⟨"France", "FRA", 2000, some 1300000000000, some 1300⟩ 1300 rfl
    (by simp [c5table]) hmem rfl

/-- C7 counterexample: the reshaped output interleaves entities: the first
three records are Alandia-1960, Borduria-1960, Alandia-1961, so Borduria
interrupts Alandia's records and the output is not grouped by entity in load
order - pandas `melt` stacks year columns, not entities. -/
theorem C7_order_counterexample :
    load_data c7table = .ok c7recs
    ∧ (c7recs.map fun x => (x.code, x.year)).take 3
        = [("AAA", 1960), ("BBB", 1960), ("AAA", 1961)] := by
  refine ⟨rfl, by decide⟩

/-- C7 (amended): a successful reshape is ordered by ascending year first:
the year sequence over the whole output is nondecreasing, and within each
year of the configured range the records appear in entity load order. -/
theorem C7_year_major_order (t : List RawRow) (recs : List LongRecord)
    (hok : load_data t = .ok recs) :
    recs.Pairwise (fun a b => a.year ≤ b.year)
    ∧ ∀ y ∈ yearCols, recs.filter (fun x => decide (x.year = y))
        = t.map fun row => toLong ⟨row.name, row.code, y, row.cell y⟩ := by
  have hm : recs = (melt t).map toLong := load_data_ok hok
  subst hm
  constructor
  · rw [List.pairwise_map]
    exact pairwise_year_flatMap t yearCols (List.pairwise_lt_range' 1960 63)
  · intro y hy
    rw [List.filter_map]
    have hcomp : ((fun x : LongRecord => decide (x.year = y)) ∘ toLong)
        = fun m : MeltedRow => decide (m.year = y) := rfl
    rw [hcomp]
    unfold melt
    rw [filter_flatMap]
    have hother : ∀ y' ∈ yearCols, y' ≠ y →
        ((t.map fun row => (⟨row.name, row.code, y', row.cell y'⟩ : MeltedRow)).filter
          fun m => decide (m.year = y)) = [] := by
      intro y' hy' hne
      rw [List.filter_eq_nil_iff]
      intro m hm'
      obtain ⟨x, hx, rfl⟩ := List.mem_map.1 hm'
      simp [hne]
    rw [flatMap_eq_single_block yearCols _ y hy (List.nodup_range' 1960 63) hother]
    have hself : ((t.map fun row => (⟨row.name, row.code, y, row.cell y⟩ : MeltedRow)).filter
        fun m => decide (m.year = y))
        = t.map fun row => (⟨row.name, row.code, y, row.cell y⟩ : MeltedRow) := by
      rw [List.filter_eq_self]
      intro m hm'
      obtain ⟨x, hx, rfl⟩ := List.mem_map.1 hm'
      simp
    rw [hself, List.map_map]
    rfl

/-- C7 witness: on the two-row table the year sequence is nondecreasing and
the 1960 slice lists Alandia then Borduria, in load order. -/
theorem C7_witness :
    load_data c7table = .ok c7recs
    ∧ c7recs.Pairwise (fun a b => a.year ≤ b.year)
    ∧ (c7recs.filter fun x => decide (x.year = 1960))
        = c7table.map fun row => toLong ⟨row.name, row.code, 1960, row.cell 1960⟩ := by
  exact ⟨rfl, (C7_year_major_order c7table c7recs rfl).1,
    (C7_year_major_order c7table c7recs rfl).2 1960 (by decide)⟩

/-- C2 counterexample: with a zero start cell (the 2000 group holds only a
NaN value, which `aggfunc="sum"` turns into 0.0) and end value 2800, the
growth metric evaluates to positive infinity: the float division by zero
substitutes infinity instead of producing a missing marker. -/
theorem C2_zero_start_counterexample :
    pivotCell c2recs "France" 2000 = .fin 0
    ∧ growthCalc c2recs "France" = some .inf := by
  refine ⟨by decide, ?_⟩
  simp [growthCalc, pivotYears, c2recs, insertYear, pivotCell, PVal.div, PVal.sub, PVal.mul]

/-- C2 (amended): the growth computation is total - it never raises - but a
zero or missing (NaN) start cell makes the growth percentage an IEEE special
value, an infinity or NaN, rather than a missing marker or an error. -/
theorem C2_zero_or_missing_start (recs : List LongRecord) (c : String)
    (y : ℕ) (ys : List ℕ)
    (hidx : pivotIndexMem recs c = true)
    (hys : pivotYears recs = y :: ys)
    (hprev : pivotCell recs c y = .fin 0 ∨ pivotCell recs c y = .nan) :
    ∃ v, growthCalc recs c = some v ∧ (v = .inf ∨ v = .neginf ∨ v = .nan) := by
  have hgc : growthCalc recs c
      = some ((((pivotCell recs c ((y :: ys).getLast (List.cons_ne_nil y ys))).div
          (pivotCell recs c y)).sub (.fin 1)).mul (.fin 100)) := by
    unfold growthCalc
    rw [hys]
  rcases pivotCell_cases recs c ((y :: ys).getLast (List.cons_ne_nil y ys)) with hcur | ⟨q, hcur⟩
  · refine ⟨.nan, ?_, Or.inr (Or.inr rfl)⟩
    rw [hgc, hcur]
    rcases hprev with hp | hp <;> rw [hp] <;> rfl
  · rcases hprev with hp | hp
    · by_cases hq0 : q = 0
      · refine ⟨.nan, ?_, Or.inr (Or.inr rfl)⟩
        rw [hgc, hcur, hp, hq0]
        norm_num [PVal.div, PVal.sub, PVal.mul]
      · by_cases hqp : 0 < q
        · refine ⟨.inf, ?_, Or.inl rfl⟩
          rw [hgc, hcur, hp]
          norm_num [PVal.div, PVal.sub, PVal.mul, hq0, hqp]
        · refine ⟨.neginf, ?_, Or.inr (Or.inl rfl)⟩
          rw [hgc, hcur, hp]
          norm_num [PVal.div, PVal.sub, PVal.mul, hq0, hqp]
    · refine ⟨.nan, ?_, Or.inr (Or.inr rfl)⟩
      rw [hgc, hcur, hp]
      rfl

/-- C2 witness: on the concrete records with a zero start cell the growth is
one of the IEEE special values, never a finite percentage or a missing
marker. -/
theorem C2_witness :
    ∃ v, growthCalc c2recs "France" = some v
      ∧ (v = .inf ∨ v = .neginf ∨ v = .nan) :=
  C2_zero_or_missing_start c2recs "France" 2000 [2022] (by decide) (by decide)
    (Or.inl (by decide))

/-- C4: when the entity's cell at the first pivot column is a finite
non-zero value `s` and its cell at the last pivot column is a finite value
`tq`, the growth metric is exactly `(tq / s - 1) * 100`; the reference years
are resolved from the supplied pivot's own year axis, whose head is the
minimum and whose last element is the maximum year present among the
records, both being years of actual records. -/
theorem C4_growth_formula_minmax (recs : List LongRecord) (c : String)
    (y : ℕ) (ys : List ℕ) (s tq : ℚ)
    (hys : pivotYears recs = y :: ys)
    (hprev : pivotCell recs c y = .fin s) (hs : s ≠ 0)
    (hcur : pivotCell recs c ((y :: ys).getLast (List.cons_ne_nil y ys)) = .fin tq) :
    growthCalc recs c = some (.fin ((tq / s - 1) * 100))
    ∧ (∀ r ∈ recs, y ≤ r.year ∧ r.year ≤ (y :: ys).getLast (List.cons_ne_nil y ys))
    ∧ (∃ r ∈ recs, r.year = y)
    ∧ (∃ r ∈ recs, r.year = (y :: ys).getLast (List.cons_ne_nil y ys)) := by
  have hsorted : (y :: ys).Pairwise (· < ·) := hys ▸ pairwise_pivotYears recs
  refine ⟨?_, ?_, ?_, ?_⟩
  · have hgc : growthCalc recs c
        = some ((((pivotCell recs c ((y :: ys).getLast (List.cons_ne_nil y ys))).div
            (pivotCell recs c y)).sub (.fin 1)).mul (.fin 100)) := by
      unfold growthCalc
      rw [hys]
    rw [hgc, hcur, hprev]
    simp [PVal.div, PVal.sub, PVal.mul, hs]
  · intro r hr
    have hy' : r.year ∈ pivotYears recs := mem_pivotYears.2 ⟨r, hr, rfl⟩
    rw [hys] at hy'
    exact ⟨sorted_head_le hsorted _ hy',
      sorted_le_getLast (List.cons_ne_nil y ys) hsorted _ hy'⟩
  · exact mem_pivotYears.1 (by rw [hys]; exact List.mem_cons_self y ys)
  · exact mem_pivotYears.1 (by rw [hys]; exact List.getLast_mem (List.cons_ne_nil y ys))

/-- C4 witness: the France scenario. The reshaped scenario table carries the
scaled values 1300 at 2000 and 2800 at 2022, and on the pivot of those two
records the growth metric is exactly (2800/1300 - 1) * 100, which lies
within 0.01 of 115.38. -/
theorem C4_witness :
    (⟨"France", "FRA", 2000, some 1300000000000, some 1300⟩ : LongRecord) ∈ c4recs
    ∧ (⟨"France", "FRA", 2022, some 2800000000000, some 2800⟩ : LongRecord) ∈ c4recs
    ∧ growthCalc [⟨"France", "FRA", 2000, some 1300000000000, some 1300⟩,
        ⟨"France", "FRA", 2022, some 2800000000000, some 2800⟩] "France"
        = some (.fin ((2800 / 1300 - 1) * 100))
    ∧ |((2800 : ℚ) / 1300 - 1) * 100 - 11538 / 100| < 1 / 100 := by
  refine ⟨?_, ?_, ?_, ?_⟩
  · refine List.mem_map.2 ⟨⟨"France", "FRA", 2000, .num 1300000000000⟩, by decide, ?_⟩
    simp [toLong, Cell.toVal, scaleFactor]
    norm_num
  · refine List.mem_map.2 ⟨⟨"France", "FRA", 2022, .num 2800000000000⟩, by decide, ?_⟩
    simp [toLong, Cell.toVal, scaleFactor]
    norm_num
  · refine (C4_growth_formula_minmax
      [⟨"France", "FRA", 2000, some 1300000000000, some 1300⟩,
       ⟨"France", "FRA", 2022, some 2800000000000, some 2800⟩] "France"
      2000 [2022] 1300 2800 (by decide) ?_ (by norm_num) ?_).1
    · simp [pivotCell]
    · show pivotCell _ "France" 2022 = .fin 2800
      simp [pivotCell]
  · rw [abs_lt]
    constructor <;> norm_num

end GDP
